import Mathlib

/-!
# Verification of the reservation-creation workflow

Shallow embedding of the reservation-creation workflow of the
`event-reservation-api` backend (Go + PostgreSQL), together with theorems
settling the specification's claims about it.

The embedding follows the source files:

* `routes/handlers/util.go` — the helper functions `confirmReservation`,
  `updateTicketsStatus`, `updateReservationStatus`,
  `substractTicketsFromEvent`, `fetchTicketDetails`,
  `fetchReservationDetails`, `validateReservationRequest`, `isRegistered`,
  `getUserIDFromContext`;
* the latest reservation handler version (`CreateReservationHandler`,
  swagger-annotated, confirm-on-create) and its companions;
* `middlewares/auth.go` — `GetClaimsFromContext`;
* `db/init/schema.sql` — the CHECK constraints that matter to the
  workflow (`events.available_tickets >= 0`, `reservations.total_tickets > 0`).

Monetary amounts (`DECIMAL` columns, Go `float64`) are idealised as `ℚ`;
machine integers are `Int` (no arithmetic here approaches overflow);
generated UUIDs are modelled as a `Nat` counter (opaque, unique).
-/

namespace EventApi

/-- One element of the `tickets` array of `models.CreateReservationPayload`:
an anonymous struct with a single `type` field. -/
structure TicketItem where
  type : String
deriving DecidableEq, Repr

/-- `models.CreateReservationPayload`: the decoded reservation-creation
request body (`event_id` plus the list of requested tickets). -/
structure CreateReservationPayload where
  eventID : Int
  tickets : List TicketItem
deriving DecidableEq, Repr

/-- The raw JSON object a client may send.  Besides the two fields of
`models.CreateReservationPayload` it may carry a `total_tickets` member;
Go's `encoding/json` silently drops members that have no counterpart in
the target struct. -/
structure RawReservationJson where
  eventID : Int
  tickets : List TicketItem
  clientTotalTickets : Option Int
deriving DecidableEq, Repr

/-- `json.NewDecoder(r.Body).Decode(&resPayload)` with target type
`models.CreateReservationPayload`: only `event_id` and `tickets` are kept;
any client-supplied `total_tickets` member is ignored. -/
def decodeCreateReservationPayload (raw : RawReservationJson) :
    CreateReservationPayload :=
  { eventID := raw.eventID, tickets := raw.tickets }

/-! ## Store rows (schema.sql) -/

/-- A row of `events` (the columns the workflow touches). -/
structure EventRow where
  id : Int
  price : ℚ
  availableTickets : Int
deriving DecidableEq, Repr

/-- A row of `reservation_statuses` or `ticket_statuses`. -/
structure StatusRow where
  id : Int
  name : String
deriving DecidableEq, Repr

/-- A row of `ticket_types` (the columns the workflow touches). -/
structure TicketTypeRow where
  id : Int
  name : String
  discount : ℚ
deriving DecidableEq, Repr

/-- A row of `reservations` (the columns the workflow touches).
`id` models the generated UUID. -/
structure ReservationRow where
  id : Nat
  userId : String
  eventId : Int
  totalTickets : Int
  statusId : Int
deriving DecidableEq, Repr

/-- A row of `tickets` (the columns the workflow touches). -/
structure TicketRow where
  reservationId : Nat
  price : ℚ
  typeId : Int
  statusId : Int
deriving DecidableEq, Repr

/-- The relational store: the four tables the workflow reads or writes,
plus a counter modelling the store's generation of fresh reservation
UUIDs. -/
structure DB where
  events : List EventRow
  reservationStatuses : List StatusRow
  ticketStatuses : List StatusRow
  ticketTypes : List TicketTypeRow
  reservations : List ReservationRow
  tickets : List TicketRow
  nextReservationId : Nat
deriving DecidableEq, Repr

/-- `available_tickets` of the (first) `events` row with the given id,
as a point read `SELECT available_tickets FROM events WHERE id = $1`
would return it. -/
def eventAvailable (db : DB) (eventID : Int) : Option Int :=
  (db.events.find? (fun e => e.id = eventID)).map (fun e => e.availableTickets)

/-! ## Authentication context (middlewares/auth.go, util.go) -/

/-- A JWT claim value (`interface{}` in `jwt.MapClaims`). -/
inductive ClaimVal where
  | str (s : String)
  | other
deriving DecidableEq, Repr

/-- The request context: it either carries a `jwt.MapClaims` value under
`UserClaimsKey` or it does not. -/
structure RequestCtx where
  claims : Option (List (String × ClaimVal))
deriving DecidableEq, Repr

/-- `middlewares.GetClaimsFromContext`: the context value under
`UserClaimsKey` type-asserted to `jwt.MapClaims`; an error when the
assertion fails. -/
def GetClaimsFromContext (ctx : RequestCtx) :
    Except String (List (String × ClaimVal)) :=
  match ctx.claims with
  | some c => Except.ok c
  | none => Except.error "no valid claims in context"

/-- `claims[key]` on the claims map: the first binding for the key. -/
def lookupClaim (claims : List (String × ClaimVal)) (key : String) :
    Option ClaimVal :=
  (claims.find? (fun p => p.1 = key)).map (fun p => p.2)

/-- `isRegistered` (util.go): claims retrieved from the context, the
`role` claim type-asserted to `string`, then compared against
`REGISTERED`/`ADMIN`; any failure along the way yields `false`. -/
def isRegistered (ctx : RequestCtx) : Bool :=
  match GetClaimsFromContext ctx with
  | Except.error _ => false
  | Except.ok claims =>
    match lookupClaim claims "role" with
    | some (ClaimVal.str role) => role = "REGISTERED" || role = "ADMIN"
    | _ => false

/-- Modelled from the spec: `isOverUnregistered`, the permission guard the
latest `CreateReservationHandler` calls, is absent from the source files
(only this call site remains).  Spec §4.4 step 1: reservation creation is
permitted to the roles REGISTERED and ADMIN only — exactly the check the
in-source `isRegistered` (util.go) performs. -/
def isOverUnregistered (ctx : RequestCtx) : Bool :=
  isRegistered ctx

/-- `getUserIDFromContext` (util.go; the latest handler calls it
`getUserIdFromContext`): the `userID` claim type-asserted to `string`. -/
def getUserIDFromContext (ctx : RequestCtx) : Except String String :=
  match GetClaimsFromContext ctx with
  | Except.error e => Except.error e
  | Except.ok claims =>
    match lookupClaim claims "userID" with
    | some (ClaimVal.str u) => Except.ok u
    | _ => Except.error "Unable to extract userId from request context"

/-! ## Store helpers (util.go) -/

/-- `validateReservationRequest` (util.go): rejects `EventID <= 0` and
nothing else — in particular the ticket list is not inspected. -/
def validateReservationRequest (req : CreateReservationPayload) :
    Except String Unit :=
  if req.eventID ≤ 0 then
    Except.error "Invalid input: ensure all fields are non-negative"
  else
    Except.ok ()

/-- `fetchReservationDetails` (util.go):
`SELECT e.price, e.available_tickets, rs.id FROM events e
JOIN reservation_statuses rs ON rs.name = $2 WHERE e.id = $1`.
Returns `(basePrice, availableTickets, statusID)`; `pgx.ErrNoRows` (no
event with the id, or no status with the name) surfaces as an error. -/
def fetchReservationDetails (db : DB) (status : String) (eventID : Int) :
    Except String (ℚ × Int × Int) :=
  match db.events.find? (fun e => e.id = eventID),
        db.reservationStatuses.find? (fun s => s.name = status) with
  | some e, some s => Except.ok (e.price, e.availableTickets, s.id)
  | _, _ => Except.error "Failed to fetch reservation details"

/-- `fetchTicketDetails` (util.go):
`SELECT tt.discount, tt.id, ts.id FROM ticket_types tt
JOIN ticket_statuses ts ON ts.name = $2 WHERE tt.name = $1`.
Both name comparisons are exact SQL string equality — no case
normalisation is applied to either argument. -/
def fetchTicketDetails (db : DB) (ticketStatus ticketType : String) :
    Except String (ℚ × Int × Int) :=
  match db.ticketTypes.find? (fun tt => tt.name = ticketType),
        db.ticketStatuses.find? (fun ts => ts.name = ticketStatus) with
  | some tt, some ts => Except.ok (tt.discount, tt.id, ts.id)
  | _, _ => Except.error "Failed to fetch reservation details"

/-- `substractTicketsFromEvent` (util.go), used by the older handler
versions: `UPDATE events SET available_tickets = $2 WHERE id = $1` —
the counter is overwritten with the passed value (the call sites pass
the requested ticket count), not decremented. -/
def substractTicketsFromEvent (db : DB) (eventID : Int) (tickets : Int) :
    Except String DB :=
  if tickets < 0 then
    -- schema.sql: CHECK (available_tickets >= 0)
    Except.error "Failed to update available tickets for event"
  else
    Except.ok { db with
      events := db.events.map (fun e =>
        if e.id = eventID then { e with availableTickets := tickets } else e) }

/-- Modelled from the spec: `setAvailableTickets`, the capacity-ledger
write the latest `CreateReservationHandler` calls, is absent from the
source files (only this call site remains).  Spec §4.2: within the active
transaction, read the event's current `available_tickets` scoped to the
event id; if `count > available_tickets`, return
`InsufficientCapacityError` without mutating anything; otherwise write
the new counter value `available_tickets - count`.  The read and the
conditional write form one atomic step (the conditional-update discipline
§4.2 recommends). -/
def setAvailableTickets (db : DB) (eventID : Int) (count : Int) :
    Except String DB :=
  match db.events.find? (fun e => e.id = eventID) with
  | none => Except.error "Failed to update available tickets for event"
  | some e =>
    if e.availableTickets < count then
      Except.error "Not enough tickets available"
    else
      Except.ok { db with
        events := db.events.map (fun r =>
          if r.id = eventID then
            { r with availableTickets := e.availableTickets - count }
          else r) }

/-! ## Bulk status updates and confirmation (util.go) -/

/-- One `tx.Exec` bulk status update, recorded so that the order of the
two updates inside `confirmReservation` is observable. -/
inductive UpdateOp where
  | reservationStatus (resId : Nat) (status : String)
  | ticketsStatus (resId : Nat) (status : String)
deriving DecidableEq, Repr

/-- The transaction's view: the (uncommitted) store state plus the log of
bulk status-update statements executed so far. -/
structure TxState where
  db : DB
  log : List UpdateOp
deriving DecidableEq, Repr

/-- `updateReservationStatus` (util.go):
`UPDATE reservations SET status_id = (SELECT id FROM reservation_statuses
WHERE name = $1 LIMIT 1) WHERE id = $2`.  When no status row carries the
name, the subquery is NULL and the update errors on the NOT NULL column
exactly when it affects a row. -/
def updateReservationStatus (s : TxState) (resId : Nat) (status : String) :
    Except String TxState :=
  match s.db.reservationStatuses.find? (fun r => r.name = status) with
  | some srow =>
    Except.ok ⟨{ s.db with
      reservations := s.db.reservations.map (fun r =>
        if r.id = resId then { r with statusId := srow.id } else r) },
      s.log ++ [UpdateOp.reservationStatus resId status]⟩
  | none =>
    if s.db.reservations.any (fun r => r.id = resId) then
      Except.error "failed to update reservation status"
    else
      Except.ok ⟨s.db, s.log ++ [UpdateOp.reservationStatus resId status]⟩

/-- `updateTicketsStatus` (util.go):
`UPDATE Tickets SET status_id = (SELECT id FROM ticket_statuses
WHERE name = $1 LIMIT 1) WHERE reservation_id = $2` — a bulk update of
every ticket of the reservation. -/
def updateTicketsStatus (s : TxState) (resId : Nat) (status : String) :
    Except String TxState :=
  match s.db.ticketStatuses.find? (fun r => r.name = status) with
  | some srow =>
    Except.ok ⟨{ s.db with
      tickets := s.db.tickets.map (fun t =>
        if t.reservationId = resId then { t with statusId := srow.id } else t) },
      s.log ++ [UpdateOp.ticketsStatus resId status]⟩
  | none =>
    if s.db.tickets.any (fun t => t.reservationId = resId) then
      Except.error "failed to update reservation status"
    else
      Except.ok ⟨s.db, s.log ++ [UpdateOp.ticketsStatus resId status]⟩

/-- `confirmReservation` (util.go): first the reservation is flipped to
CONFIRMED, then its tickets to SOLD, in that order.  The Go function
returns only an error; the embedding also returns the transaction's
in-flight view reached so far.  On the error path that view is only
ever the content of an aborted transaction: a failed `Exec` is a
statement (or connection) error that aborts the PostgreSQL transaction,
so the caller's subsequent `tx.Commit` fails and none of these effects
can survive — `createReservationPhase2` models exactly that. -/
def confirmReservation (s : TxState) (reservationId : Nat) :
    TxState × Option String :=
  match updateReservationStatus s reservationId "CONFIRMED" with
  | Except.error e => (s, some ("Failed to update reservation status: " ++ e))
  | Except.ok s1 =>
    match updateTicketsStatus s1 reservationId "SOLD" with
    | Except.error e => (s1, some ("Failed to update ticket status: " ++ e))
    | Except.ok s2 => (s2, none)

/-! ## Inserts -/

/-- `INSERT INTO Reservations (user_id, event_id, total_tickets, status_id)
VALUES ($1, $2, $3, $4) RETURNING id`.  schema.sql:
`total_tickets INT NOT NULL CHECK (total_tickets > 0)` — the insert fails
when the count is not positive.  The store returns the generated id. -/
def insertReservation (db : DB) (userId : String) (eventId : Int)
    (totalTickets : Int) (statusId : Int) : Except String (Nat × DB) :=
  if totalTickets ≤ 0 then
    Except.error "violates check constraint on total_tickets"
  else
    Except.ok (db.nextReservationId,
      { db with
        reservations := db.reservations ++
          [⟨db.nextReservationId, userId, eventId, totalTickets, statusId⟩],
        nextReservationId := db.nextReservationId + 1 })

/-- `INSERT INTO Tickets (reservation_id, price, type_id, status_id)
VALUES ($1, $2, $3, $4)`.  schema.sql: `CHECK (price >= 0)`. -/
def insertTicket (db : DB) (reservationId : Nat) (price : ℚ)
    (typeId statusId : Int) : Except String DB :=
  if price < 0 then
    Except.error "violates check constraint on price"
  else
    Except.ok { db with
      tickets := db.tickets ++ [⟨reservationId, price, typeId, statusId⟩] }

/-- The per-ticket loop of `CreateReservationHandler`: for each requested
ticket, in request order, resolve the RESERVED status id and the type's
discount, then insert one ticket priced `basePrice * (1 - discount)`.
The first failure aborts the loop with the handler's error response. -/
def insertTicketsLoop (db : DB) (reservationId : Nat) (basePrice : ℚ) :
    List TicketItem → Except String DB
  | [] => Except.ok db
  | item :: rest =>
    match fetchTicketDetails db "RESERVED" item.type with
    | Except.error _ => Except.error "Failed to fetch ticket details."
    | Except.ok (discount, typeId, statusId) =>
      match insertTicket db reservationId (basePrice * (1 - discount))
          typeId statusId with
      | Except.error _ => Except.error "Failed to create tickets."
      | Except.ok db1 => insertTicketsLoop db1 reservationId basePrice rest

/-! ## The orchestrator (latest `CreateReservationHandler`)

The handler is split at the capacity-ledger write: everything before it —
permission check, user lookup, validation, the snapshot reads of the open
transaction — is `createReservationPhase1`; the ledger's atomic
conditional update, the inserts, the confirmation and the commit are
`createReservationPhase2`.  A single sequential request composes the two
phases on the same store state (`CreateReservationHandler`); the
interleaving of two concurrent requests under the store's read-committed
isolation composes them differently (`interleavedAttempts` below). -/

/-- An HTTP response written by the handler. -/
inductive Resp where
  | forbidden (msg : String)
  | badRequest (msg : String)
  | internalError (msg : String)
  | created (reservationId : Nat)
deriving DecidableEq, Repr

/-- What the handler leaves behind: every response it wrote (the missing
`return` statements in the source let it write more than one), and the
committed store state after it returns (the deferred `tx.Rollback`
discards the transaction unless `tx.Commit` ran). -/
structure HandlerOutcome where
  responses : List Resp
  db : DB
deriving DecidableEq, Repr

/-- The values the first half of the handler passes to the second. -/
structure Phase1Data where
  userId : String
  eventID : Int
  basePrice : ℚ
  statusID : Int
  totalTickets : Int
  tickets : List TicketItem
deriving DecidableEq, Repr

/-- First half of the latest `CreateReservationHandler`: the
`isOverUnregistered` guard, `getUserIdFromContext`,
`validateReservationRequest`, `pool.Begin`, `fetchReservationDetails`
(the transaction's snapshot read) and the app-side capacity comparison
`availableTickets < req.TotalTickets`.  Every failure here returns a
single response and leaves the transaction without writes. -/
def createReservationPhase1 (ctx : RequestCtx) (db : DB)
    (resPayload : CreateReservationPayload) : Except (List Resp) Phase1Data :=
  if !(isOverUnregistered ctx) then
    Except.error [Resp.forbidden "Insufficient permissions to create a reservation."]
  else
    match getUserIDFromContext ctx with
    | Except.error _ =>
      Except.error [Resp.internalError "Failed to fetch the user identifier."]
    | Except.ok userId =>
      match validateReservationRequest resPayload with
      | Except.error msg => Except.error [Resp.badRequest msg]
      | Except.ok _ =>
        match fetchReservationDetails db "PENDING" resPayload.eventID with
        | Except.error _ =>
          Except.error [Resp.internalError "Failed to fetch reservation details."]
        | Except.ok (basePrice, availableTickets, statusID) =>
          let totalTickets : Int := resPayload.tickets.length
          if availableTickets < totalTickets then
            Except.error [Resp.badRequest "Not enough tickets to create a reservation."]
          else
            Except.ok ⟨userId, resPayload.eventID, basePrice, statusID,
              totalTickets, resPayload.tickets⟩

/-- Second half of the latest `CreateReservationHandler`, from the
`setAvailableTickets` call to the commit.  Two error paths of the source
lack a `return`, so the handler falls through after writing a 500:

* a `setAvailableTickets` failure is a zero-rows-affected check in Go,
  not a SQL error — the transaction stays healthy, so the fall-through
  really does insert the reservation and tickets and commit them;
* a `confirmReservation` failure is a statement error that has aborted
  the PostgreSQL transaction — the fall-through reaches `tx.Commit`,
  which then fails (pgx `ErrTxCommitRollback`); the commit-error branch
  does have a `return`, so the handler writes the commit-failure
  response and exits with everything rolled back.

Every other failure returns, and the deferred rollback restores the
committed state `db`. -/
def createReservationPhase2 (db : DB) (d : Phase1Data) : HandlerOutcome :=
  let ledger := setAvailableTickets db d.eventID d.totalTickets
  let tx1 := match ledger with
    | Except.ok db1 => db1
    | Except.error _ => db
  let resps1 : List Resp := match ledger with
    | Except.ok _ => []
    | Except.error e => [Resp.internalError e]
  match insertReservation tx1 d.userId d.eventID d.totalTickets d.statusID with
  | Except.error _ =>
    ⟨resps1 ++ [Resp.internalError "Failed to create a reservation."], db⟩
  | Except.ok (reservationId, tx2) =>
    match insertTicketsLoop tx2 reservationId d.basePrice d.tickets with
    | Except.error msg => ⟨resps1 ++ [Resp.internalError msg], db⟩
    | Except.ok tx3 =>
      match confirmReservation ⟨tx3, []⟩ reservationId with
      | (_, some _) =>
        ⟨resps1 ++ [Resp.internalError "Failed to confirm reservation.",
          Resp.internalError "Failed to commit transaction."], db⟩
      | (tx4, none) =>
        ⟨resps1 ++ [Resp.created reservationId], tx4.db⟩

/-- The latest `CreateReservationHandler` on one sequential request: both
phases run against the same committed store state. -/
def CreateReservationHandler (ctx : RequestCtx) (db : DB)
    (resPayload : CreateReservationPayload) : HandlerOutcome :=
  match createReservationPhase1 ctx db resPayload with
  | Except.error rs => ⟨rs, db⟩
  | Except.ok d => createReservationPhase2 db d

/-- Two concurrent attempts under the store's read-committed isolation,
in the interleaving where both transactions begin and execute their
snapshot reads against the same committed state `db` before either
commits; the atomic ledger updates and the commits then serialise, A
before B. -/
def interleavedAttempts (ctxA ctxB : RequestCtx) (db : DB)
    (pA pB : CreateReservationPayload) : HandlerOutcome × HandlerOutcome :=
  match createReservationPhase1 ctxA db pA,
        createReservationPhase1 ctxB db pB with
  | Except.ok dA, Except.ok dB =>
    let outA := createReservationPhase2 db dA
    let outB := createReservationPhase2 outA.db dB
    (outA, outB)
  | Except.ok dA, Except.error rsB =>
    (createReservationPhase2 db dA, ⟨rsB, db⟩)
  | Except.error rsA, Except.ok dB =>
    (⟨rsA, db⟩, createReservationPhase2 db dB)
  | Except.error rsA, Except.error rsB => (⟨rsA, db⟩, ⟨rsB, db⟩)

/-- A serial sequence of reservation-creation attempts: each attempt runs
to completion (commit or rollback) before the next begins. -/
def runAttempts (db : DB) :
    List (RequestCtx × CreateReservationPayload) → DB
  | [] => db
  | (ctx, p) :: rest => runAttempts (CreateReservationHandler ctx db p).db rest

/-- Sum of `total_tickets` over the rows of one event in a reservation
list. -/
def ticketSum (l : List ReservationRow) (eventID : Int) : Int :=
  (l.filter (fun r => r.eventId = eventID)).foldr
    (fun r s => r.totalTickets + s) 0

/-- Sum of `total_tickets` over the committed reservations of one event. -/
def resSum (db : DB) (eventID : Int) : Int :=
  ticketSum db.reservations eventID

/-! ## Concrete fixtures for witnesses and counterexamples -/

/-- A request context carrying well-formed claims of a REGISTERED user. -/
def sampleCtx : RequestCtx :=
  ⟨some [("role", ClaimVal.str "REGISTERED"), ("userID", ClaimVal.str "u1")]⟩

/-- A store with one event (id 7, base price 50, 10 tickets left) and the
bootstrap reference data. -/
def sampleDB : DB :=
  { events := [⟨7, 50, 10⟩],
    reservationStatuses := [⟨1, "PENDING"⟩, ⟨2, "CONFIRMED"⟩, ⟨3, "CANCELLED"⟩],
    ticketStatuses := [⟨1, "AVAILABLE"⟩, ⟨2, "RESERVED"⟩, ⟨3, "SOLD"⟩,
      ⟨4, "CANCELLED"⟩],
    ticketTypes := [⟨1, "STANDARD", 0⟩, ⟨2, "STUDENT", 1/5⟩],
    reservations := [], tickets := [], nextReservationId := 0 }

/-- `sampleDB` with the SOLD row missing from `ticket_statuses`, so that
the bulk ticket update inside `confirmReservation` fails. -/
def sampleDBNoSold : DB :=
  { sampleDB with ticketStatuses := [⟨1, "AVAILABLE"⟩, ⟨2, "RESERVED"⟩] }

/-- `sampleDB` with a single remaining ticket for event 7. -/
def sampleDBOne : DB :=
  { sampleDB with events := [⟨7, 50, 1⟩] }

/-- A one-STANDARD-ticket request for event 7. -/
def samplePayload : CreateReservationPayload := ⟨7, [⟨"STANDARD"⟩]⟩

/-! ## Helper lemmas -/

theorem eventAvailable_some (db : DB) (ev a : Int)
    (h : eventAvailable db ev = some a) :
    ∃ e, db.events.find? (fun r => r.id = ev) = some e ∧
      e.availableTickets = a := by
  unfold eventAvailable at h
  cases hf : db.events.find? (fun r => r.id = ev) with
  | none => rw [hf] at h; cases h
  | some e =>
    rw [hf] at h
    simp only [Option.map_some'] at h
    exact ⟨e, rfl, by injection h⟩

theorem eventAvailable_eq_of_events (db1 db2 : DB) (ev : Int)
    (h : db1.events = db2.events) :
    eventAvailable db1 ev = eventAvailable db2 ev := by
  unfold eventAvailable
  rw [h]

theorem ticketSum_append (l1 l2 : List ReservationRow) (ev : Int) :
    ticketSum (l1 ++ l2) ev = ticketSum l1 ev + ticketSum l2 ev := by
  induction l1 with
  | nil => simp [ticketSum]
  | cons r t ih =>
    unfold ticketSum at *
    simp only [List.cons_append, List.filter_cons]
    by_cases hr : r.eventId = ev
    · simp only [hr]
      simp only [List.foldr_cons, if_true, decide_True]
      rw [ih]; omega
    · simp only [hr]
      simp only [if_false, decide_False]
      exact ih

theorem ticketSum_single (r : ReservationRow) (ev : Int) :
    ticketSum [r] ev = if r.eventId = ev then r.totalTickets else 0 := by
  unfold ticketSum
  by_cases h : r.eventId = ev <;> simp [h]

theorem ticketSum_map (l : List ReservationRow) (g : ReservationRow → ReservationRow)
    (ev : Int)
    (hg : ∀ r, (g r).eventId = r.eventId ∧ (g r).totalTickets = r.totalTickets) :
    ticketSum (l.map g) ev = ticketSum l ev := by
  induction l with
  | nil => rfl
  | cons r t ih =>
    unfold ticketSum at *
    simp only [List.map_cons, List.filter_cons]
    obtain ⟨h1, h2⟩ := hg r
    by_cases hr : r.eventId = ev
    · simp only [h1, hr]
      simp only [if_true, decide_True, List.foldr_cons, h2]
      rw [ih]
    · simp only [h1, hr]
      simp only [if_false, decide_False]
      exact ih

theorem setAvailableTickets_ok (db : DB) (eventID n : Int) (e : EventRow)
    (hfind : db.events.find? (fun r => r.id = eventID) = some e)
    (hle : n ≤ e.availableTickets) :
    ∃ db2, setAvailableTickets db eventID n = Except.ok db2 ∧
      eventAvailable db2 eventID = some (e.availableTickets - n) ∧
      db2.reservations = db.reservations ∧ db2.tickets = db.tickets ∧
      db2.reservationStatuses = db.reservationStatuses ∧
      db2.ticketStatuses = db.ticketStatuses ∧
      db2.ticketTypes = db.ticketTypes ∧
      db2.nextReservationId = db.nextReservationId := by
  have hid : e.id = eventID := by
    have hp := List.find?_some hfind
    simpa using hp
  unfold setAvailableTickets
  rw [hfind]
  dsimp only
  rw [if_neg (not_lt.mpr hle)]
  refine ⟨_, rfl, ?_, rfl, rfl, rfl, rfl, rfl, rfl⟩
  unfold eventAvailable
  rw [List.find?_map]
  have hcomp : ((fun r : EventRow => decide (r.id = eventID)) ∘
      (fun r : EventRow => if r.id = eventID then
        { r with availableTickets := e.availableTickets - n } else r)) =
      (fun r : EventRow => decide (r.id = eventID)) := by
    funext r
    by_cases hr : r.id = eventID <;> simp [hr]
  rw [hcomp, hfind]
  simp [hid]

theorem updateReservationStatus_ok (s : TxState) (resId : Nat) (status : String)
    (s' : TxState) (h : updateReservationStatus s resId status = Except.ok s') :
    s'.db.events = s.db.events ∧ s'.db.tickets = s.db.tickets ∧
    s'.db.reservationStatuses = s.db.reservationStatuses ∧
    s'.db.ticketStatuses = s.db.ticketStatuses ∧
    s'.db.ticketTypes = s.db.ticketTypes ∧
    s'.db.nextReservationId = s.db.nextReservationId ∧
    s'.log = s.log ++ [UpdateOp.reservationStatus resId status] ∧
    ∃ g : ReservationRow → ReservationRow,
      s'.db.reservations = s.db.reservations.map g ∧
      ∀ r, (g r).id = r.id ∧ (g r).userId = r.userId ∧
        (g r).eventId = r.eventId ∧ (g r).totalTickets = r.totalTickets := by
  unfold updateReservationStatus at h
  split at h
  case h_1 srow heq =>
    cases h
    refine ⟨rfl, rfl, rfl, rfl, rfl, rfl, rfl,
      fun r => if r.id = resId then { r with statusId := srow.id } else r, rfl, ?_⟩
    intro r
    by_cases hr : r.id = resId <;> simp [hr]
  case h_2 =>
    split at h
    · cases h
    · cases h
      exact ⟨rfl, rfl, rfl, rfl, rfl, rfl, rfl, id, (List.map_id _).symm,
        fun r => ⟨rfl, rfl, rfl, rfl⟩⟩

theorem updateTicketsStatus_ok (s : TxState) (resId : Nat) (status : String)
    (s' : TxState) (h : updateTicketsStatus s resId status = Except.ok s') :
    s'.db.events = s.db.events ∧ s'.db.reservations = s.db.reservations ∧
    s'.db.reservationStatuses = s.db.reservationStatuses ∧
    s'.db.ticketStatuses = s.db.ticketStatuses ∧
    s'.db.ticketTypes = s.db.ticketTypes ∧
    s'.db.nextReservationId = s.db.nextReservationId ∧
    s'.log = s.log ++ [UpdateOp.ticketsStatus resId status] := by
  unfold updateTicketsStatus at h
  split at h
  case h_1 srow heq =>
    cases h
    exact ⟨rfl, rfl, rfl, rfl, rfl, rfl, rfl⟩
  case h_2 =>
    split at h
    · cases h
    · cases h
      exact ⟨rfl, rfl, rfl, rfl, rfl, rfl, rfl⟩

theorem confirmReservation_state (s : TxState) (resId : Nat) (ev : Int) :
    (confirmReservation s resId).1.db.events = s.db.events ∧
    (confirmReservation s resId).1.db.nextReservationId = s.db.nextReservationId ∧
    ticketSum (confirmReservation s resId).1.db.reservations ev =
      ticketSum s.db.reservations ev ∧
    ∀ r ∈ s.db.reservations,
      ∃ r' ∈ (confirmReservation s resId).1.db.reservations,
        r'.id = r.id ∧ r'.userId = r.userId ∧ r'.eventId = r.eventId ∧
        r'.totalTickets = r.totalTickets := by
  unfold confirmReservation
  cases h1 : updateReservationStatus s resId "CONFIRMED" with
  | error e =>
    exact ⟨rfl, rfl, rfl, fun r hr => ⟨r, hr, rfl, rfl, rfl, rfl⟩⟩
  | ok s1 =>
    obtain ⟨he1, ht1, _, _, _, hn1, _, g, hg, hgf⟩ :=
      updateReservationStatus_ok s resId "CONFIRMED" s1 h1
    dsimp only
    cases h2 : updateTicketsStatus s1 resId "SOLD" with
    | error e =>
      dsimp only
      refine ⟨he1, hn1, ?_, ?_⟩
      · rw [hg]
        exact ticketSum_map _ g ev (fun r => ⟨(hgf r).2.2.1, (hgf r).2.2.2⟩)
      · intro r hr
        refine ⟨g r, ?_, (hgf r).1, (hgf r).2.1, (hgf r).2.2.1, (hgf r).2.2.2⟩
        rw [hg]
        exact List.mem_map_of_mem g hr
    | ok s2 =>
      obtain ⟨he2, hr2, _, _, _, hn2, _⟩ :=
        updateTicketsStatus_ok s1 resId "SOLD" s2 h2
      dsimp only
      refine ⟨he2.trans he1, hn2.trans hn1, ?_, ?_⟩
      · rw [hr2, hg]
        exact ticketSum_map _ g ev (fun r => ⟨(hgf r).2.2.1, (hgf r).2.2.2⟩)
      · intro r hr
        refine ⟨g r, ?_, (hgf r).1, (hgf r).2.1, (hgf r).2.2.1, (hgf r).2.2.2⟩
        rw [hr2, hg]
        exact List.mem_map_of_mem g hr

theorem insertTicketsLoop_ok (items : List TicketItem) (db : DB) (resId : Nat)
    (base : ℚ) (db' : DB)
    (h : insertTicketsLoop db resId base items = Except.ok db') :
    db'.events = db.events ∧ db'.reservations = db.reservations ∧
    db'.reservationStatuses = db.reservationStatuses ∧
    db'.ticketStatuses = db.ticketStatuses ∧
    db'.ticketTypes = db.ticketTypes ∧
    db'.nextReservationId = db.nextReservationId := by
  induction items generalizing db with
  | nil =>
    unfold insertTicketsLoop at h
    cases h
    exact ⟨rfl, rfl, rfl, rfl, rfl, rfl⟩
  | cons it rest ih =>
    unfold insertTicketsLoop at h
    split at h
    · cases h
    case h_2 discount typeId statusId heq =>
      split at h
      · cases h
      case h_2 db1 heq2 =>
        unfold insertTicket at heq2
        split at heq2
        · cases heq2
        · cases heq2
          have hrec := ih _ h
          exact hrec

theorem createReservationPhase1_ok (ctx : RequestCtx) (db : DB)
    (p : CreateReservationPayload) (d : Phase1Data)
    (h : createReservationPhase1 ctx db p = Except.ok d) :
    d.eventID = p.eventID ∧ d.totalTickets = (p.tickets.length : Int) ∧
    d.tickets = p.tickets ∧
    ∃ e, db.events.find? (fun r => r.id = p.eventID) = some e ∧
      d.basePrice = e.price ∧ d.totalTickets ≤ e.availableTickets := by
  unfold createReservationPhase1 at h
  split at h
  · cases h
  · split at h
    · cases h
    case h_2 userId hu =>
      split at h
      · cases h
      · split at h
        · cases h
        case h_2 basePrice availableTickets statusID hf =>
          dsimp only at h
          split at h
          · cases h
          case isFalse hlt =>
            cases h
            unfold fetchReservationDetails at hf
            split at hf
            case h_1 e srow he hs =>
              injection hf with hf
              obtain ⟨hp, ha, _⟩ : e.price = basePrice ∧
                  e.availableTickets = availableTickets ∧ srow.id = statusID := by
                refine ⟨congrArg Prod.fst hf, ?_, ?_⟩
                · exact congrArg (fun q => q.2.1) hf
                · exact congrArg (fun q => q.2.2) hf
              refine ⟨rfl, rfl, rfl, e, he, hp.symm, ?_⟩
              rw [ha]
              exact not_lt.mp hlt
            · cases hf

theorem createReservationPhase1_error (ctx : RequestCtx) (db : DB)
    (p : CreateReservationPayload) (rs : List Resp)
    (h : createReservationPhase1 ctx db p = Except.error rs) :
    ∀ rid, Resp.created rid ∉ rs := by
  unfold createReservationPhase1 at h
  split at h
  · cases h; intro rid; simp
  · split at h
    · cases h; intro rid; simp
    · split at h
      · cases h; intro rid; simp
      · split at h
        · cases h; intro rid; simp
        · dsimp only at h
          split at h
          · cases h; intro rid; simp
          · cases h

theorem createReservationPhase2_cases (db : DB) (d : Phase1Data) (e : EventRow)
    (hfind : db.events.find? (fun r => r.id = d.eventID) = some e)
    (hle : d.totalTickets ≤ e.availableTickets) :
    ((createReservationPhase2 db d).db = db ∧
      ∀ rid, Resp.created rid ∉ (createReservationPhase2 db d).responses) ∨
    (0 < d.totalTickets ∧
      eventAvailable (createReservationPhase2 db d).db d.eventID =
        some (e.availableTickets - d.totalTickets) ∧
      (∀ ev : Int, ticketSum (createReservationPhase2 db d).db.reservations ev =
        ticketSum db.reservations ev +
          (if d.eventID = ev then d.totalTickets else 0)) ∧
      (∃ r ∈ (createReservationPhase2 db d).db.reservations,
        r.id = db.nextReservationId ∧ r.userId = d.userId ∧
        r.eventId = d.eventID ∧ r.totalTickets = d.totalTickets) ∧
      Resp.created db.nextReservationId ∈ (createReservationPhase2 db d).responses ∧
      (∀ rid, Resp.created rid ∈ (createReservationPhase2 db d).responses →
        rid = db.nextReservationId)) := by
  obtain ⟨db1, hset, havail1, hres1, htick1, hrs1, hts1, htt1, hnext1⟩ :=
    setAvailableTickets_ok db d.eventID d.totalTickets e hfind hle
  unfold createReservationPhase2
  rw [hset]
  dsimp only
  by_cases hn : d.totalTickets ≤ 0
  · unfold insertReservation
    rw [if_pos hn]
    dsimp only
    left
    refine ⟨rfl, fun rid => ?_⟩
    simp
  · unfold insertReservation
    rw [if_neg hn]
    dsimp only
    cases hloop : insertTicketsLoop
        { db1 with
          reservations := db1.reservations ++
            [⟨db1.nextReservationId, d.userId, d.eventID, d.totalTickets, d.statusID⟩],
          nextReservationId := db1.nextReservationId + 1 }
        db1.nextReservationId d.basePrice d.tickets with
    | error msg =>
      left
      refine ⟨rfl, fun rid => ?_⟩
      simp
    | ok tx3 =>
      dsimp only
      obtain ⟨hle3, hlr3, _, _, _, hln3⟩ := insertTicketsLoop_ok _ _ _ _ _ hloop
      rcases hconf : confirmReservation ⟨tx3, []⟩ db1.nextReservationId with ⟨tx4, oerr⟩
      have hce := (confirmReservation_state ⟨tx3, []⟩ db1.nextReservationId 0).1
      have hcr := (confirmReservation_state ⟨tx3, []⟩ db1.nextReservationId 0).2.2.2
      rw [hconf] at hce hcr
      dsimp only at hce hcr
      have hrow : (⟨db1.nextReservationId, d.userId, d.eventID, d.totalTickets,
          d.statusID⟩ : ReservationRow) ∈ tx3.reservations := by
        rw [hlr3]
        exact List.mem_append_right _ (List.mem_singleton.mpr rfl)
      have havail4 : eventAvailable tx4.db d.eventID =
          some (e.availableTickets - d.totalTickets) := by
        rw [eventAvailable_eq_of_events tx4.db db1 d.eventID (by rw [hce, hle3])]
        exact havail1
      have hsum4 : ∀ ev : Int, ticketSum tx4.db.reservations ev =
          ticketSum db.reservations ev +
            (if d.eventID = ev then d.totalTickets else 0) := by
        intro ev
        have hcs := (confirmReservation_state ⟨tx3, []⟩ db1.nextReservationId ev).2.2.1
        rw [hconf] at hcs
        dsimp only at hcs
        rw [hcs, hlr3]
        dsimp only
        rw [hres1, ticketSum_append, ticketSum_single]
      have hex : ∃ r ∈ tx4.db.reservations,
          r.id = db.nextReservationId ∧ r.userId = d.userId ∧
          r.eventId = d.eventID ∧ r.totalTickets = d.totalTickets := by
        obtain ⟨r', hmem, h1, h2, h3, h4⟩ := hcr _ hrow
        exact ⟨r', hmem, by rw [h1]; exact hnext1, h2, h3, h4⟩
      cases oerr with
      | some msg =>
        left
        dsimp only
        refine ⟨rfl, fun rid => ?_⟩
        simp
      | none =>
        right
        dsimp only
        refine ⟨not_le.mp hn, havail4, hsum4, hex, ?_, ?_⟩
        · rw [hnext1.symm]
          simp
        · intro rid hr
          simp at hr
          rw [hr, hnext1]

theorem handler_capacity_step (ctx : RequestCtx) (db : DB)
    (p : CreateReservationPayload) (ev a : Int)
    (hev : p.eventID = ev)
    (ha : eventAvailable db ev = some a) (h0 : 0 ≤ a) :
    ∃ a1, eventAvailable (CreateReservationHandler ctx db p).db ev = some a1 ∧
      0 ≤ a1 ∧
      ticketSum (CreateReservationHandler ctx db p).db.reservations ev + a1 =
        ticketSum db.reservations ev + a := by
  unfold CreateReservationHandler
  cases hp : createReservationPhase1 ctx db p with
  | error rs => exact ⟨a, ha, h0, rfl⟩
  | ok d =>
    dsimp only
    obtain ⟨hdev, hdtot, hdtick, e, hfind, hdbase, hdle⟩ :=
      createReservationPhase1_ok ctx db p d hp
    obtain ⟨efind, hefind, hea⟩ := eventAvailable_some db ev a ha
    have hfind1 : db.events.find? (fun r => r.id = d.eventID) = some e := by
      rw [hdev]
      exact hfind
    have hfind2 : db.events.find? (fun r => r.id = ev) = some e := by
      rw [← hev]
      exact hfind
    have hsame : e = efind := by
      rw [hfind2] at hefind
      exact Option.some.inj hefind
    have heA : e.availableTickets = a := by
      rw [hsame]
      exact hea
    rcases createReservationPhase2_cases db d e hfind1 hdle with
      ⟨hdb, -⟩ | ⟨hpos, havail, hsum, -, -, -⟩
    · rw [hdb]
      exact ⟨a, ha, h0, by omega⟩
    · have havail2 : eventAvailable (createReservationPhase2 db d).db ev =
          some (e.availableTickets - d.totalTickets) := by
        rw [← hev, ← hdev]
        exact havail
      have hsum2 := hsum ev
      rw [hdev, hev] at hsum2
      simp only [eq_self_iff_true, if_true] at hsum2
      refine ⟨e.availableTickets - d.totalTickets, havail2,
        sub_nonneg.mpr hdle, ?_⟩
      rw [hsum2, heA]
      omega

theorem runAttempts_invariant (l : List (RequestCtx × CreateReservationPayload))
    (db0 : DB) (ev a0 : Int)
    (ha : eventAvailable db0 ev = some a0) (h0 : 0 ≤ a0)
    (hev : ∀ q ∈ l, q.2.eventID = ev) :
    ∃ a1, eventAvailable (runAttempts db0 l) ev = some a1 ∧ 0 ≤ a1 ∧
      ticketSum (runAttempts db0 l).reservations ev + a1 =
        ticketSum db0.reservations ev + a0 := by
  induction l generalizing db0 a0 with
  | nil => exact ⟨a0, ha, h0, rfl⟩
  | cons q rest ih =>
    obtain ⟨ctx, p⟩ := q
    simp only [runAttempts]
    obtain ⟨a1, h1, h2, h3⟩ :=
      handler_capacity_step ctx db0 p ev a0
        (hev (ctx, p) (List.mem_cons_self _ _)) ha h0
    obtain ⟨a2, g1, g2, g3⟩ :=
      ih (CreateReservationHandler ctx db0 p).db a1 h1 h2
        (fun q hq => hev q (List.mem_cons_of_mem _ hq))
    exact ⟨a2, g1, g2, by omega⟩

/-! ## Claim theorems -/

/-- Claim C1: Capacity-Ledger reserve.  Within the active transaction the
orchestrator reads the event's current `available_tickets`; when the
requested count exceeds it, the attempt ends with the
insufficient-capacity client error and no state is mutated; otherwise the
ledger write (`setAvailableTickets`, modelled from the spec) stores
`available_tickets - count`, touching no other table, and any attempt
that commits leaves the event's counter at its prior value minus the
count. -/
theorem C1_capacity_ledger_reserve (ctx : RequestCtx) (db : DB)
    (p : CreateReservationPayload) (u : String) (e : EventRow)
    (hreg : isOverUnregistered ctx = true)
    (hu : getUserIDFromContext ctx = Except.ok u)
    (hpos : 0 < p.eventID)
    (hpend : (db.reservationStatuses.find? (fun s => s.name = "PENDING")).isSome)
    (hfind : db.events.find? (fun r => r.id = p.eventID) = some e) :
    ((e.availableTickets < (p.tickets.length : Int)) →
      setAvailableTickets db p.eventID (p.tickets.length : Int) =
        Except.error "Not enough tickets available" ∧
      CreateReservationHandler ctx db p =
        ⟨[Resp.badRequest "Not enough tickets to create a reservation."], db⟩) ∧
    (((p.tickets.length : Int) ≤ e.availableTickets) →
      (∃ db2, setAvailableTickets db p.eventID (p.tickets.length : Int) =
          Except.ok db2 ∧
        eventAvailable db2 p.eventID =
          some (e.availableTickets - (p.tickets.length : Int)) ∧
        db2.reservations = db.reservations ∧ db2.tickets = db.tickets) ∧
      ∀ rid, Resp.created rid ∈ (CreateReservationHandler ctx db p).responses →
        eventAvailable (CreateReservationHandler ctx db p).db p.eventID =
          some (e.availableTickets - (p.tickets.length : Int))) := by
  obtain ⟨srow, hsrow⟩ := Option.isSome_iff_exists.mp hpend
  have hval : validateReservationRequest p = Except.ok () := by
    unfold validateReservationRequest
    rw [if_neg (not_le.mpr hpos)]
  have hfetch : fetchReservationDetails db "PENDING" p.eventID =
      Except.ok (e.price, e.availableTickets, srow.id) := by
    unfold fetchReservationDetails
    rw [hfind, hsrow]
  have hphase1 : createReservationPhase1 ctx db p =
      (if e.availableTickets < (p.tickets.length : Int) then
        Except.error [Resp.badRequest "Not enough tickets to create a reservation."]
      else Except.ok ⟨u, p.eventID, e.price, srow.id,
        (p.tickets.length : Int), p.tickets⟩) := by
    unfold createReservationPhase1
    rw [hreg]
    simp only [Bool.not_true, Bool.false_eq_true, if_false]
    rw [hu, hval, hfetch]
  constructor
  · intro hlt
    constructor
    · unfold setAvailableTickets
      rw [hfind]
      dsimp only
      rw [if_pos hlt]
    · unfold CreateReservationHandler
      rw [hphase1, if_pos hlt]
  · intro hle
    obtain ⟨db2, hset, havail, hres, htick, _, _, _, _⟩ :=
      setAvailableTickets_ok db p.eventID (p.tickets.length : Int) e hfind hle
    refine ⟨⟨db2, hset, havail, hres, htick⟩, ?_⟩
    intro rid hr
    have hout : CreateReservationHandler ctx db p =
        createReservationPhase2 db ⟨u, p.eventID, e.price, srow.id,
          (p.tickets.length : Int), p.tickets⟩ := by
      unfold CreateReservationHandler
      rw [hphase1, if_neg (not_lt.mpr hle)]
    rw [hout] at hr ⊢
    rcases createReservationPhase2_cases db
        ⟨u, p.eventID, e.price, srow.id, (p.tickets.length : Int), p.tickets⟩
        e hfind hle with ⟨-, hno⟩ | ⟨-, havail2, -, -, -, -⟩
    · exact absurd hr (hno rid)
    · exact havail2

/-- Claim C1 witness: for event 7 with 10 remaining tickets and a
one-ticket request, the ledger reserve succeeds and stores 10 - 1 = 9,
leaving reservations and tickets untouched. -/
theorem C1_capacity_ledger_reserve_witness :
    ∃ db2, setAvailableTickets sampleDB samplePayload.eventID
        (samplePayload.tickets.length : Int) = Except.ok db2 ∧
      eventAvailable db2 samplePayload.eventID =
        some ((⟨7, 50, 10⟩ : EventRow).availableTickets -
          (samplePayload.tickets.length : Int)) ∧
      db2.reservations = sampleDB.reservations ∧
      db2.tickets = sampleDB.tickets :=
  ((C1_capacity_ledger_reserve sampleCtx sampleDB samplePayload "u1" ⟨7, 50, 10⟩
    (by with_unfolding_all decide) (by with_unfolding_all rfl) (by decide)
    (by with_unfolding_all decide) (by with_unfolding_all decide)).2
    (by decide)).1

/-- Claim C2: capacity invariant.  Over any serial sequence of completed
reservation-creation attempts against one event, the total of
`total_tickets` across the reservations committed by those attempts never
exceeds the event's initial `available_tickets`. -/
theorem C2_capacity_invariant (db0 : DB) (ev a0 : Int)
    (l : List (RequestCtx × CreateReservationPayload))
    (ha : eventAvailable db0 ev = some a0) (h0 : 0 ≤ a0)
    (hev : ∀ q ∈ l, q.2.eventID = ev) :
    resSum (runAttempts db0 l) ev - resSum db0 ev ≤ a0 := by
  obtain ⟨a1, h1, h2, h3⟩ := runAttempts_invariant l db0 ev a0 ha h0 hev
  unfold resSum
  omega

/-- Claim C2 witness: two one-ticket attempts against event 7 starting
from 10 available tickets commit at most 10 tickets in total. -/
theorem C2_capacity_invariant_witness :
    resSum (runAttempts sampleDB
      [(sampleCtx, samplePayload), (sampleCtx, samplePayload)]) 7 -
      resSum sampleDB 7 ≤ 10 :=
  C2_capacity_invariant sampleDB 7 10
    [(sampleCtx, samplePayload), (sampleCtx, samplePayload)]
    (by with_unfolding_all decide) (by decide) (by decide)

/-- Claim C3 (code bug): atomicity fails on a realizable path.  In the
read-committed interleaving of two one-ticket attempts against one
remaining ticket, the loser's capacity step returns the
insufficient-capacity error (a zero-rows-affected check in Go, not a SQL
error, so its transaction stays healthy); the handler writes the 500
but — missing a `return` — does not abort: it inserts its reservation
and ticket, confirms and commits them, and emits a created response, so
the attempt's writes survive a step error.  A confirmation-step error,
by contrast, has already aborted the transaction, so the fall-through
reaches `tx.Commit`, which fails and is answered with a second error
response — those writes are rolled back, but the orchestrator still did
not return at the failing step. -/
theorem C3_step_error_not_rolled_back :
    Resp.internalError "Not enough tickets available" ∈
      (interleavedAttempts sampleCtx sampleCtx sampleDBOne
        samplePayload samplePayload).2.responses ∧
    Resp.created 1 ∈
      (interleavedAttempts sampleCtx sampleCtx sampleDBOne
        samplePayload samplePayload).2.responses ∧
    (⟨1, "u1", 7, 1, 2⟩ : ReservationRow) ∈
      (interleavedAttempts sampleCtx sampleCtx sampleDBOne
        samplePayload samplePayload).2.db.reservations ∧
    (⟨1, 50, 1, 3⟩ : TicketRow) ∈
      (interleavedAttempts sampleCtx sampleCtx sampleDBOne
        samplePayload samplePayload).2.db.tickets ∧
    CreateReservationHandler sampleCtx sampleDBNoSold ⟨7, [⟨"STANDARD"⟩]⟩ =
      ⟨[Resp.internalError "Failed to confirm reservation.",
        Resp.internalError "Failed to commit transaction."], sampleDBNoSold⟩ := by
  refine ⟨?_, ?_, ?_, ?_, ?_⟩ <;> with_unfolding_all decide

/-- Claim C4 (code bug): read-committed interleaving of two one-ticket
attempts against an event with one remaining ticket.  Attempt A commits;
attempt B's conditional ledger update fails, B writes the 500 response
but — missing `return` — continues, inserts its own reservation and also
commits: two reservations totalling 2 tickets are committed against an
initial capacity of 1. -/
theorem C4_oversell_under_interleaving :
    (interleavedAttempts sampleCtx sampleCtx sampleDBOne
      samplePayload samplePayload).1.responses = [Resp.created 0] ∧
    (interleavedAttempts sampleCtx sampleCtx sampleDBOne
      samplePayload samplePayload).2.responses =
      [Resp.internalError "Not enough tickets available", Resp.created 1] ∧
    resSum (interleavedAttempts sampleCtx sampleCtx sampleDBOne
      samplePayload samplePayload).2.db 7 = 2 ∧
    eventAvailable sampleDBOne 7 = some 1 := by
  refine ⟨?_, ?_, ?_, ?_⟩ <;> with_unfolding_all decide

/-- Claim C5 counterexample: ticket-type lookup is exact SQL string
equality, not case-normalised: with the reference row named STANDARD,
resolving "STANDARD" succeeds while resolving "standard" fails, so the
two case-variants do not yield the same type id and discount. -/
theorem C5_case_lookup_counterexample :
    fetchTicketDetails sampleDB "RESERVED" "STANDARD" = Except.ok (0, 1, 2) ∧
    fetchTicketDetails sampleDB "RESERVED" "standard" =
      Except.error "Failed to fetch reservation details" ∧
    fetchTicketDetails sampleDB "RESERVED" "standard" ≠
      fetchTicketDetails sampleDB "RESERVED" "STANDARD" := by
  have e1 : fetchTicketDetails sampleDB "RESERVED" "STANDARD" =
      Except.ok (0, 1, 2) := by with_unfolding_all rfl
  have e2 : fetchTicketDetails sampleDB "RESERVED" "standard" =
      Except.error "Failed to fetch reservation details" := by
    with_unfolding_all rfl
  refine ⟨e1, e2, ?_⟩
  rw [e1, e2]
  intro hcon
  exact Except.noConfusion hcon

/-- Claim C5 (amended): the Lookup Resolver matches ticket-type names by
exact, case-sensitive comparison — a successful resolution returns the
discount and id of a stored row whose name equals the queried string
verbatim. -/
theorem C5_lookup_exact_match (db : DB) (st ty : String) (d : ℚ)
    (tid sid : Int)
    (h : fetchTicketDetails db st ty = Except.ok (d, tid, sid)) :
    ∃ tt ∈ db.ticketTypes, tt.name = ty ∧ tt.discount = d ∧ tt.id = tid := by
  unfold fetchTicketDetails at h
  split at h
  case h_1 tt ts htt hts =>
    injection h with h
    refine ⟨tt, List.mem_of_find?_eq_some htt, ?_, ?_, ?_⟩
    · have hp := List.find?_some htt
      simpa using hp
    · exact congrArg Prod.fst h
    · exact congrArg (fun q => q.2.1) h
  · cases h

/-- Claim C5 witness: resolving the STUDENT type verbatim returns the
stored row's discount 1/5 and id 2. -/
theorem C5_lookup_exact_match_witness :
    ∃ tt ∈ sampleDB.ticketTypes, tt.name = "STUDENT" ∧
      tt.discount = 1/5 ∧ tt.id = 2 :=
  C5_lookup_exact_match sampleDB "RESERVED" "STUDENT" (1/5) 2 2
    (by with_unfolding_all rfl)

/-- Claim C6 counterexample: on a successful confirmation the log of bulk
updates is reservation-to-CONFIRMED first, tickets-to-SOLD second — not
the claimed tickets-first order. -/
theorem C6_confirm_order_counterexample :
    (confirmReservation ⟨sampleDB, []⟩ 0).2 = none ∧
    (confirmReservation ⟨sampleDB, []⟩ 0).1.log =
      [UpdateOp.reservationStatus 0 "CONFIRMED", UpdateOp.ticketsStatus 0 "SOLD"] ∧
    (confirmReservation ⟨sampleDB, []⟩ 0).1.log ≠
      [UpdateOp.ticketsStatus 0 "SOLD", UpdateOp.reservationStatus 0 "CONFIRMED"] := by
  have e1 : (confirmReservation ⟨sampleDB, []⟩ 0).1.log =
      [UpdateOp.reservationStatus 0 "CONFIRMED",
        UpdateOp.ticketsStatus 0 "SOLD"] := by
    with_unfolding_all rfl
  refine ⟨by with_unfolding_all rfl, e1, ?_⟩
  rw [e1]
  decide

/-- Claim C6 (amended): in the confirmation step the reservation is
flipped from PENDING to CONFIRMED first and every ticket of the
reservation from RESERVED to SOLD second, in that order, using bulk
updates scoped by reservation id. -/
theorem C6_confirm_updates_reservation_first (s : TxState) (resId : Nat)
    (s' : TxState) (h : confirmReservation s resId = (s', none)) :
    s'.log = s.log ++ [UpdateOp.reservationStatus resId "CONFIRMED",
      UpdateOp.ticketsStatus resId "SOLD"] := by
  unfold confirmReservation at h
  cases h1 : updateReservationStatus s resId "CONFIRMED" with
  | error e =>
    rw [h1] at h
    dsimp only at h
    simp [Prod.ext_iff] at h
  | ok s1 =>
    rw [h1] at h
    dsimp only at h
    cases h2 : updateTicketsStatus s1 resId "SOLD" with
    | error e =>
      rw [h2] at h
      dsimp only at h
      simp [Prod.ext_iff] at h
    | ok s2 =>
      rw [h2] at h
      dsimp only at h
      obtain ⟨-, -, -, -, -, -, hlog1, -⟩ :=
        updateReservationStatus_ok s resId "CONFIRMED" s1 h1
      obtain ⟨-, -, -, -, -, -, hlog2⟩ :=
        updateTicketsStatus_ok s1 resId "SOLD" s2 h2
      have hs : s2 = s' := congrArg Prod.fst h
      rw [← hs, hlog2, hlog1, List.append_assoc]
      rfl

/-- Claim C6 witness: a concrete successful confirmation logs the
reservation update before the tickets update. -/
theorem C6_confirm_updates_reservation_first_witness :
    (confirmReservation ⟨sampleDB, []⟩ 0).1.log =
      [] ++ [UpdateOp.reservationStatus 0 "CONFIRMED",
        UpdateOp.ticketsStatus 0 "SOLD"] :=
  C6_confirm_updates_reservation_first ⟨sampleDB, []⟩ 0
    (confirmReservation ⟨sampleDB, []⟩ 0).1 (by with_unfolding_all decide)

/-- Claim C7 counterexample: an empty ticket list passes validation (only
`eventID <= 0` is checked), so the handler proceeds into a transaction;
the attempt then dies inside it on the reservation insert (the store's
CHECK total_tickets > 0), a 500 internal error — not an InvalidInput
rejection before the transaction. -/
theorem C7_empty_tickets_not_rejected :
    validateReservationRequest ⟨1, []⟩ = Except.ok () ∧
    (CreateReservationHandler sampleCtx sampleDB ⟨7, []⟩).responses =
      [Resp.internalError "Failed to create a reservation."] := by
  exact ⟨rfl, by with_unfolding_all decide⟩

/-- Claim C7 (amended): a request with `eventID <= 0` is rejected as
InvalidInput before any transaction is opened and no store state changes;
an empty ticket list is not rejected by input validation. -/
theorem C7_invalid_event_rejected (ctx : RequestCtx) (db : DB)
    (p : CreateReservationPayload) (u : String)
    (hreg : isOverUnregistered ctx = true)
    (hu : getUserIDFromContext ctx = Except.ok u)
    (hid : p.eventID ≤ 0) :
    CreateReservationHandler ctx db p =
      ⟨[Resp.badRequest "Invalid input: ensure all fields are non-negative"], db⟩ := by
  have hval : validateReservationRequest p =
      Except.error "Invalid input: ensure all fields are non-negative" := by
    unfold validateReservationRequest
    rw [if_pos hid]
  unfold CreateReservationHandler createReservationPhase1
  rw [hreg]
  simp only [Bool.not_true, Bool.false_eq_true, if_false]
  rw [hu, hval]

/-- Claim C7 witness: a request with event id 0 is answered with the
InvalidInput rejection and the store is untouched. -/
theorem C7_invalid_event_rejected_witness :
    CreateReservationHandler sampleCtx sampleDB ⟨0, [⟨"STANDARD"⟩]⟩ =
      ⟨[Resp.badRequest "Invalid input: ensure all fields are non-negative"],
        sampleDB⟩ :=
  C7_invalid_event_rejected sampleCtx sampleDB ⟨0, [⟨"STANDARD"⟩]⟩ "u1"
    (by with_unfolding_all decide) (by with_unfolding_all rfl) (by decide)

/-- Claim C8: pricing.  Every ticket row the per-ticket loop inserts is
priced `basePrice * (1 - discount)` of its resolved type, with no
additional rounding by the calculator. -/
theorem C8_pricing (db : DB) (resId : Nat) (base : ℚ)
    (items : List TicketItem) (db' : DB)
    (h : insertTicketsLoop db resId base items = Except.ok db') :
    ∀ t ∈ db'.tickets, t ∈ db.tickets ∨
      ∃ it ∈ items, ∃ tt,
        db.ticketTypes.find? (fun r => r.name = it.type) = some tt ∧
        t.price = base * (1 - tt.discount) := by
  induction items generalizing db with
  | nil =>
    unfold insertTicketsLoop at h
    cases h
    intro t ht
    exact Or.inl ht
  | cons it rest ih =>
    unfold insertTicketsLoop at h
    split at h
    · cases h
    case h_2 discount typeId statusId heq =>
      split at h
      · cases h
      case h_2 db1 heq2 =>
        unfold insertTicket at heq2
        split at heq2
        · cases heq2
        · cases heq2
          intro t ht
          rcases ih _ h t ht with hmem | ⟨it2, hit2, tt, htt, hp⟩
          · rcases List.mem_append.mp hmem with h1 | h2
            · exact Or.inl h1
            · have ht2 := List.mem_singleton.mp h2
              right
              refine ⟨it, List.mem_cons_self _ _, ?_⟩
              unfold fetchTicketDetails at heq
              split at heq
              case h_1 tt0 ts0 htt0 hts0 =>
                injection heq with heq
                refine ⟨tt0, htt0, ?_⟩
                rw [ht2]
                have hd : tt0.discount = discount := congrArg Prod.fst heq
                dsimp only
                rw [hd]
              · cases heq
          · exact Or.inr ⟨it2, List.mem_cons_of_mem _ hit2, tt, htt, hp⟩

/-- Claim C8 witness: a STUDENT ticket (discount 0.20) against base price
100.00 is inserted priced 80.00 = 100 * (1 - 1/5). -/
theorem C8_pricing_witness :
    (⟨0, 80, 2, 2⟩ : TicketRow) ∈ sampleDB.tickets ∨
    ∃ it ∈ [(⟨"STUDENT"⟩ : TicketItem)], ∃ tt,
      sampleDB.ticketTypes.find? (fun r => r.name = it.type) = some tt ∧
      (⟨0, 80, 2, 2⟩ : TicketRow).price = 100 * (1 - tt.discount) :=
  C8_pricing sampleDB 0 100 [⟨"STUDENT"⟩]
    { sampleDB with tickets := [⟨0, 80, 2, 2⟩] } (by with_unfolding_all rfl)
    ⟨0, 80, 2, 2⟩ (by with_unfolding_all decide)

/-- Claim C9: the reservation's persisted `total_tickets` always equals
the length of the request's ticket list; a client-supplied total in the
payload is dropped by decoding, and the capacity check compares the
available count against that computed length. -/
theorem C9_total_tickets_is_length (raw : RawReservationJson) (x : Option Int)
    (ctx : RequestCtx) (db : DB) :
    decodeCreateReservationPayload raw =
      decodeCreateReservationPayload { raw with clientTotalTickets := x } ∧
    (∀ d, createReservationPhase1 ctx db (decodeCreateReservationPayload raw) =
        Except.ok d →
      d.totalTickets = ((decodeCreateReservationPayload raw).tickets.length : Int)) ∧
    (∀ rid, Resp.created rid ∈
        (CreateReservationHandler ctx db (decodeCreateReservationPayload raw)).responses →
      ∃ r ∈ (CreateReservationHandler ctx db
          (decodeCreateReservationPayload raw)).db.reservations,
        r.id = rid ∧
        r.totalTickets = ((decodeCreateReservationPayload raw).tickets.length : Int)) := by
  refine ⟨rfl, ?_, ?_⟩
  · intro d hd
    exact (createReservationPhase1_ok _ _ _ _ hd).2.1
  · intro rid hr
    unfold CreateReservationHandler at hr ⊢
    cases hp : createReservationPhase1 ctx db (decodeCreateReservationPayload raw) with
    | error rs =>
      rw [hp] at hr
      dsimp only at hr
      exact absurd hr (createReservationPhase1_error _ _ _ _ hp rid)
    | ok d =>
      rw [hp] at hr
      dsimp only at hr
      dsimp only
      obtain ⟨hdev, hdtot, -, e, hfind, -, hdle⟩ :=
        createReservationPhase1_ok _ _ _ _ hp
      have hfind1 : db.events.find? (fun r => r.id = d.eventID) = some e := by
        rw [hdev]
        exact hfind
      rcases createReservationPhase2_cases db d e hfind1 hdle with
        ⟨-, hno⟩ | ⟨-, -, -, hex, -, hall⟩
      · exact absurd hr (hno rid)
      · obtain ⟨r, hrm, hr1, -, -, hr4⟩ := hex
        refine ⟨r, hrm, ?_, ?_⟩
        · rw [hall rid hr, hr1]
        · rw [hr4, hdtot]

/-- Claim C9 witness: a raw payload carrying a client-supplied
total_tickets of 99 but one ticket yields a committed reservation with
total_tickets 1. -/
theorem C9_total_tickets_is_length_witness :
    ∃ r ∈ (CreateReservationHandler sampleCtx sampleDB
        (decodeCreateReservationPayload ⟨7, [⟨"STANDARD"⟩], some 99⟩)).db.reservations,
      r.id = 0 ∧
      r.totalTickets = ((decodeCreateReservationPayload
        ⟨7, [⟨"STANDARD"⟩], some 99⟩).tickets.length : Int) :=
  (C9_total_tickets_is_length ⟨7, [⟨"STANDARD"⟩], some 99⟩ none
    sampleCtx sampleDB).2.2 0 (by with_unfolding_all decide)

/-- Claim C10: any request whose context lacks claims, carries malformed
claims, or carries a role other than REGISTERED or ADMIN is answered 403
Forbidden before any store access — the handler returns with the store
unchanged, and all three cases produce exactly the same outcome. -/
theorem C10_unauthorized_forbidden (ctx : RequestCtx) (db : DB)
    (p : CreateReservationPayload)
    (h : ∀ claims role, ctx.claims = some claims →
      lookupClaim claims "role" = some (ClaimVal.str role) →
      role ≠ "REGISTERED" ∧ role ≠ "ADMIN") :
    CreateReservationHandler ctx db p =
      ⟨[Resp.forbidden "Insufficient permissions to create a reservation."], db⟩ := by
  have hreg : isOverUnregistered ctx = false := by
    unfold isOverUnregistered isRegistered GetClaimsFromContext
    cases hc : ctx.claims with
    | none => rfl
    | some claims =>
      dsimp only
      cases hl : lookupClaim claims "role" with
      | none => rfl
      | some v =>
        cases v with
        | str role =>
          obtain ⟨h1, h2⟩ := h claims role hc hl
          simp [h1, h2]
        | other => rfl
  unfold CreateReservationHandler createReservationPhase1
  rw [hreg]
  simp only [Bool.not_false, if_true]

/-- Claim C10 witness: a context with no claims at all gets the same 403
outcome, with the store unchanged. -/
theorem C10_unauthorized_forbidden_witness :
    CreateReservationHandler ⟨none⟩ sampleDB samplePayload =
      ⟨[Resp.forbidden "Insufficient permissions to create a reservation."],
        sampleDB⟩ :=
  C10_unauthorized_forbidden ⟨none⟩ sampleDB samplePayload
    (fun _ _ hc _ => Option.noConfusion hc)

end EventApi
